import Mathlib

/-!
Shallow embedding of the `rend` WebGL2 wrapper library, covering the
resource-binding and draw-dispatch subsystem: `Command` (uniform
resolution at creation, per-draw uniform dispatch, attribute location
lookup, draw-call selection) from `src/src/command.ts`, and
`Framebuffer` (validated construction, `init`, `restore`, `target`)
from the framebuffer source file.

WebGL handles (`WebGLProgram`, `WebGLTexture`, `WebGLFramebuffer`,
`WebGLUniformLocation`) are opaque objects in JS; we model them as
`Nat` (nullable ones as `Option Nat`).  JS numbers that only flow
through the API unchanged are modelled as `Int`.  GPU side effects are
modelled as explicit traces of events.
-/

namespace Rend

/-- A GL enum constant: `gl.UNSIGNED_INT`. -/
def GL_UNSIGNED_INT : Nat := 5125
/-- A GL enum constant: `gl.TEXTURE_2D`. -/
def GL_TEXTURE_2D : Nat := 3553
/-- A GL enum constant: `gl.TEXTURE0`. -/
def GL_TEXTURE0 : Nat := 33984
/-- A GL enum constant: `gl.DRAW_FRAMEBUFFER`. -/
def GL_DRAW_FRAMEBUFFER : Nat := 36009
/-- A GL enum constant: `gl.COLOR_ATTACHMENT0`. -/
def GL_COLOR_ATTACHMENT0 : Nat := 36064
/-- A GL enum constant: `gl.DEPTH_ATTACHMENT`. -/
def GL_DEPTH_ATTACHMENT : Nat := 36096
/-- A GL enum constant: `gl.DEPTH_STENCIL_ATTACHMENT`. -/
def GL_DEPTH_STENCIL_ATTACHMENT : Nat := 33306
/-- A GL enum constant: `gl.FRAMEBUFFER_COMPLETE`. -/
def GL_FRAMEBUFFER_COMPLETE : Nat := 36053

/-- The `Texture` contract surface consumed by the core (`texture.ts`):
a GL texture handle plus declared dimensions. -/
structure Tex where
  glTexture : Nat
  width : Nat
  height : Nat
deriving DecidableEq, Repr

/-- `AccessorOrValue<P, R> = Accessor<P, R> | R` from `command.ts`:
a uniform value is either a static value or an accessor function. -/
inductive AccessorOrValue (P R : Type) : Type
  | value (r : R)
  | accessor (f : P → R)

/-- `access` from `command.ts`: `typeof value === "function" ?
value(props) : value`. -/
def access {P R : Type} (props : P) (v : AccessorOrValue P R) : R :=
  match v with
  | .value r => r
  | .accessor f => f props

/-- The closed `Uniform<P>` union from `command.ts`: 29 type-tagged
kinds (scalar/vector int/uint/float of arity 1-4, the three square
matrices, and texture). -/
inductive Uniform (P : Type) : Type
  | u1f (value : AccessorOrValue P Int)
  | u1fv (value : AccessorOrValue P (List Int))
  | u1i (value : AccessorOrValue P Int)
  | u1iv (value : AccessorOrValue P (List Int))
  | u1ui (value : AccessorOrValue P Int)
  | u1uiv (value : AccessorOrValue P (List Int))
  | u2f (value : AccessorOrValue P (List Int))
  | u2fv (value : AccessorOrValue P (List Int))
  | u2i (value : AccessorOrValue P (List Int))
  | u2iv (value : AccessorOrValue P (List Int))
  | u2ui (value : AccessorOrValue P (List Int))
  | u2uiv (value : AccessorOrValue P (List Int))
  | u3f (value : AccessorOrValue P (List Int))
  | u3fv (value : AccessorOrValue P (List Int))
  | u3i (value : AccessorOrValue P (List Int))
  | u3iv (value : AccessorOrValue P (List Int))
  | u3ui (value : AccessorOrValue P (List Int))
  | u3uiv (value : AccessorOrValue P (List Int))
  | u4f (value : AccessorOrValue P (List Int))
  | u4fv (value : AccessorOrValue P (List Int))
  | u4i (value : AccessorOrValue P (List Int))
  | u4iv (value : AccessorOrValue P (List Int))
  | u4ui (value : AccessorOrValue P (List Int))
  | u4uiv (value : AccessorOrValue P (List Int))
  | matrix2fv (value : AccessorOrValue P (List Int))
  | matrix3fv (value : AccessorOrValue P (List Int))
  | matrix4fv (value : AccessorOrValue P (List Int))
  | texture (value : AccessorOrValue P Tex)

/-- `UniformInfo<P>` from `command.ts`: identifier, resolved location,
definition. -/
structure UniformInfo (P : Type) where
  identifier : String
  location : Nat
  definition : Uniform P

/-- The uniform-resolution loop of `Command.create` (`command.ts`
lines 51-58): for each declared `(identifier, uniform)` entry in
order, look the identifier up via `gl.getUniformLocation`; a `null`
location throws `"No location for uniform: " + identifier`, otherwise
a `UniformInfo` is recorded.  The lookup is modelled by the
environment `env : String → Option Nat`. -/
def resolveUniforms {P : Type} (env : String → Option Nat) :
    List (String × Uniform P) → Except String (List (UniformInfo P))
  | [] => .ok []
  | (identifier, uniform) :: rest =>
    match env identifier with
    | none => .error ("No location for uniform: " ++ identifier)
    | some location => do
      let tail ← resolveUniforms env rest
      return ⟨identifier, location, uniform⟩ :: tail

/-- The four underlying GPU draw-call variants of `Command.draw`. -/
inductive DrawCall : Type
  | drawElementsInstanced (mode count ty offset instCount : Nat)
  | drawElements (mode count ty offset : Nat)
  | drawArraysInstanced (mode first count instCount : Nat)
  | drawArrays (mode first count : Nat)
deriving DecidableEq, Repr

/-- Whether a draw call reads element indices. -/
def DrawCall.indexed : DrawCall → Bool
  | .drawElementsInstanced _ _ _ _ _ => true
  | .drawElements _ _ _ _ => true
  | .drawArraysInstanced _ _ _ _ => false
  | .drawArrays _ _ _ => false

/-- Whether a draw call is instanced. -/
def DrawCall.instanced : DrawCall → Bool
  | .drawElementsInstanced _ _ _ _ _ => true
  | .drawElements _ _ _ _ => false
  | .drawArraysInstanced _ _ _ _ => true
  | .drawArrays _ _ _ => false

/-- The index type passed to an indexed draw call (`none` for the
array variants, which take no index type). -/
def DrawCall.indexType : DrawCall → Option Nat
  | .drawElementsInstanced _ _ ty _ _ => some ty
  | .drawElements _ _ ty _ => some ty
  | .drawArraysInstanced _ _ _ _ => none
  | .drawArrays _ _ _ => none

/-- `Command.draw` (`command.ts` lines 152-182): selects among the
four GPU draw variants by `hasElements` and the truthiness of
`instCount` (a JS number is truthy iff nonzero), and always passes
`gl.UNSIGNED_INT` as the index type when indexed.  The returned list
is the sequence of GPU draw calls issued. -/
def Command.drawDispatch (glPrimitive : Nat) (hasElements : Bool)
    (count instCount : Nat) : List DrawCall :=
  if hasElements then
    if instCount ≠ 0 then
      [.drawElementsInstanced glPrimitive count GL_UNSIGNED_INT 0 instCount]
    else
      [.drawElements glPrimitive count GL_UNSIGNED_INT 0]
  else
    if instCount ≠ 0 then
      [.drawArraysInstanced glPrimitive 0 count instCount]
    else
      [.drawArrays glPrimitive 0 count]

/-- The GL calls issued by `Command.updateUniforms`: one constructor
per `gl.uniform*` entry point it uses, plus `gl.activeTexture` and
`gl.bindTexture` from the `"texture"` case.  Vector destructurings
(`const [x, y] = ...`) are modelled with `List.get?`, which like JS
destructuring yields nothing (`undefined`) past the end. -/
inductive GLU : Type
  | uniform1f (loc : Nat) (v : Int)
  | uniform1fv (loc : Nat) (v : List Int)
  | uniform1i (loc : Nat) (v : Int)
  | uniform1iv (loc : Nat) (v : List Int)
  | uniform1ui (loc : Nat) (v : Int)
  | uniform1uiv (loc : Nat) (v : List Int)
  | uniform2f (loc : Nat) (x y : Option Int)
  | uniform2fv (loc : Nat) (v : List Int)
  | uniform2i (loc : Nat) (x y : Option Int)
  | uniform2iv (loc : Nat) (v : List Int)
  | uniform2ui (loc : Nat) (x y : Option Int)
  | uniform2uiv (loc : Nat) (v : List Int)
  | uniform3f (loc : Nat) (x y z : Option Int)
  | uniform3fv (loc : Nat) (v : List Int)
  | uniform3i (loc : Nat) (x y z : Option Int)
  | uniform3iv (loc : Nat) (v : List Int)
  | uniform3ui (loc : Nat) (x y z : Option Int)
  | uniform3uiv (loc : Nat) (v : List Int)
  | uniform4f (loc : Nat) (x y z w : Option Int)
  | uniform4fv (loc : Nat) (v : List Int)
  | uniform4i (loc : Nat) (x y z w : Option Int)
  | uniform4iv (loc : Nat) (v : List Int)
  | uniform4ui (loc : Nat) (x y z w : Option Int)
  | uniform4uiv (loc : Nat) (v : List Int)
  | uniformMatrix2fv (loc : Nat) (transpose : Bool) (v : List Int)
  | uniformMatrix3fv (loc : Nat) (transpose : Bool) (v : List Int)
  | uniformMatrix4fv (loc : Nat) (transpose : Bool) (v : List Int)
  | activeTexture (unit : Nat)
  | bindTexture (target : Nat) (handle : Nat)
deriving DecidableEq, Repr

/-- The body of `Command.updateUniforms` (`command.ts` lines 184-307):
iterates over the `uniformInfo` bindings in declaration order with a
running `textureUnitOffset` (the `off` argument) that starts at 0 and
is post-incremented by each `"texture"` case; every other case emits
exactly one `gl.uniform*` call on the value produced by `access`. -/
def updateUniformsGo {P : Type} (props : P) :
    Nat → List (UniformInfo P) → List GLU
  | _, [] => []
  | off, b :: rest =>
    match b.definition with
    | .u1f v => .uniform1f b.location (access props v) :: updateUniformsGo props off rest
    | .u1fv v => .uniform1fv b.location (access props v) :: updateUniformsGo props off rest
    | .u1i v => .uniform1i b.location (access props v) :: updateUniformsGo props off rest
    | .u1iv v => .uniform1iv b.location (access props v) :: updateUniformsGo props off rest
    | .u1ui v => .uniform1ui b.location (access props v) :: updateUniformsGo props off rest
    | .u1uiv v => .uniform1uiv b.location (access props v) :: updateUniformsGo props off rest
    | .u2f v =>
      let l := access props v
      .uniform2f b.location (l.get? 0) (l.get? 1) :: updateUniformsGo props off rest
    | .u2fv v => .uniform2fv b.location (access props v) :: updateUniformsGo props off rest
    | .u2i v =>
      let l := access props v
      .uniform2i b.location (l.get? 0) (l.get? 1) :: updateUniformsGo props off rest
    | .u2iv v => .uniform2iv b.location (access props v) :: updateUniformsGo props off rest
    | .u2ui v =>
      let l := access props v
      .uniform2ui b.location (l.get? 0) (l.get? 1) :: updateUniformsGo props off rest
    | .u2uiv v => .uniform2uiv b.location (access props v) :: updateUniformsGo props off rest
    | .u3f v =>
      let l := access props v
      .uniform3f b.location (l.get? 0) (l.get? 1) (l.get? 2) :: updateUniformsGo props off rest
    | .u3fv v => .uniform3fv b.location (access props v) :: updateUniformsGo props off rest
    | .u3i v =>
      let l := access props v
      .uniform3i b.location (l.get? 0) (l.get? 1) (l.get? 2) :: updateUniformsGo props off rest
    | .u3iv v => .uniform3iv b.location (access props v) :: updateUniformsGo props off rest
    | .u3ui v =>
      let l := access props v
      .uniform3ui b.location (l.get? 0) (l.get? 1) (l.get? 2) :: updateUniformsGo props off rest
    | .u3uiv v => .uniform3uiv b.location (access props v) :: updateUniformsGo props off rest
    | .u4f v =>
      let l := access props v
      .uniform4f b.location (l.get? 0) (l.get? 1) (l.get? 2) (l.get? 3) :: updateUniformsGo props off rest
    | .u4fv v => .uniform4fv b.location (access props v) :: updateUniformsGo props off rest
    | .u4i v =>
      let l := access props v
      .uniform4i b.location (l.get? 0) (l.get? 1) (l.get? 2) (l.get? 3) :: updateUniformsGo props off rest
    | .u4iv v => .uniform4iv b.location (access props v) :: updateUniformsGo props off rest
    | .u4ui v =>
      let l := access props v
      .uniform4ui b.location (l.get? 0) (l.get? 1) (l.get? 2) (l.get? 3) :: updateUniformsGo props off rest
    | .u4uiv v => .uniform4uiv b.location (access props v) :: updateUniformsGo props off rest
    | .matrix2fv v => .uniformMatrix2fv b.location false (access props v) :: updateUniformsGo props off rest
    | .matrix3fv v => .uniformMatrix3fv b.location false (access props v) :: updateUniformsGo props off rest
    | .matrix4fv v => .uniformMatrix4fv b.location false (access props v) :: updateUniformsGo props off rest
    | .texture v =>
      let t := access props v
      .activeTexture (GL_TEXTURE0 + off)
        :: .bindTexture GL_TEXTURE_2D t.glTexture
        :: .uniform1i b.location (Int.ofNat off)
        :: updateUniformsGo props (off + 1) rest

/-- `Command.updateUniforms` (`command.ts`): `textureUnitOffset`
starts at 0 on every invocation. -/
def Command.updateUniforms {P : Type} (bindings : List (UniformInfo P))
    (props : P) : List GLU :=
  updateUniformsGo props 0 bindings

/-- The texture-typed bindings of a binding list, in declaration
order, as (location, value) pairs. -/
def textureBindings {P : Type} (bindings : List (UniformInfo P)) :
    List (Nat × AccessorOrValue P Tex) :=
  bindings.filterMap fun b =>
    match b.definition with
    | .texture v => some (b.location, v)
    | _ => none

/-- Extracts the texture-binding triples from a GL-call trace: each
contiguous `activeTexture u; bindTexture _ h; uniform1i loc k` run
becomes `(u, h, loc, k)`. -/
def texTriples : List GLU → List (Nat × Nat × Nat × Int)
  | .activeTexture u :: .bindTexture _ h :: .uniform1i loc k :: rest =>
    (u, h, loc, k) :: texTriples rest
  | _ :: rest => texTriples rest
  | [] => []

/-- The texture-unit assignment the claim describes: starting at
`off`, each texture binding in order consumes the next unit. -/
def expectedTexTriples {P : Type} (props : P) :
    Nat → List (Nat × AccessorOrValue P Tex) → List (Nat × Nat × Nat × Int)
  | _, [] => []
  | off, (loc, v) :: rest =>
    (GL_TEXTURE0 + off, (access props v).glTexture, loc, Int.ofNat off)
      :: expectedTexTriples props (off + 1) rest

/-! ## `Command.locate` and `INT_PATTERN` -/

/-- A digit in `'1'`-`'9'` (the regex class `[1-9]`). -/
def isNonzeroDigit (c : Char) : Bool :=
  c.isDigit && c ≠ '0'

/-- The regex fragment `[1-9]\d*$` tested against every start
position of the character list: true iff some suffix consists of a
`[1-9]` digit followed by digits running to the end of the string. -/
def tailIntMatch : List Char → Bool
  | [] => false
  | c :: rest => (isNonzeroDigit c && rest.all Char.isDigit) || tailIntMatch rest

/-- `INT_PATTERN.test(s)` for `INT_PATTERN = /^0|[1-9]\d*$/`
(`command.ts` line 7).  JS regex alternation binds loosest, so the
pattern is `(^0)|([1-9]\d*$)`: it matches iff the string starts with
`'0'` or ends with a `[1-9]\d*` run. -/
def intPatternTest (s : String) : Bool :=
  (match s.data with
   | '0' :: _ => true
   | _ => false) || tailIntMatch s.data

/-- The predicate the spec intends by "a key that is already an
integer": the whole key is a decimal integer literal, i.e. the full
string matches `^(0|[1-9]\d*)$`. -/
def wholeIntLiteral (s : String) : Bool :=
  match s.data with
  | [] => false
  | c :: rest => (c = '0' && rest.isEmpty) || (isNonzeroDigit c && rest.all Char.isDigit)

/-- `UNKNOWN_ATTRIB_LOCATION` from `command.ts` line 8: the value
`gl.getAttribLocation` returns for an unknown identifier. -/
def UNKNOWN_ATTRIB_LOCATION : Int := -1

/-- JS object-property assignment `accum[k] = v` on an association
list: overwrite an existing key in place, otherwise append. -/
def setKey {α : Type} (m : List (String × α)) (k : String) (v : α) :
    List (String × α) :=
  if m.any (fun p => p.1 = k) then
    m.map fun p => if p.1 = k then (k, v) else p
  else
    m ++ [(k, v)]

/-- The `reduce` loop of `Command.locate` (`command.ts` lines
110-127): a key matching `INT_PATTERN` is stored under the key
itself; any other key is resolved via `gl.getAttribLocation`
(modelled by `env : String → Int`), throwing
`"No location for attrib: " + identifier` on
`UNKNOWN_ATTRIB_LOCATION`, and stored under the resolved location's
numeric key. -/
def locateGo {α : Type} (env : String → Int) (accum : List (String × α)) :
    List (String × α) → Except String (List (String × α))
  | [] => .ok accum
  | (identifier, definition) :: rest =>
    if intPatternTest identifier then
      locateGo env (setKey accum identifier definition) rest
    else
      let location := env identifier
      if location = UNKNOWN_ATTRIB_LOCATION then
        .error ("No location for attrib: " ++ identifier)
      else
        locateGo env (setKey accum (toString location) definition) rest

/-- `Command.locate` restricted to its attribute map (the `elements`
field is passed through untouched by the source). -/
def Command.locate {α : Type} (env : String → Int)
    (attributes : List (String × α)) : Except String (List (String × α)) :=
  locateGo env [] attributes

/-! ## Framebuffer -/

/-- The texture argument of `gl.framebufferTexture2D`.  In the source
this parameter has the (structurally empty) type `WebGLTexture |
null`; the color path passes `buffer.glTexture` (a GL handle) while
the depth path passes the `Texture` wrapper object itself, which
TypeScript's structural typing accepts.  The two are distinguished
here. -/
inductive TexArg : Type
  | handle (h : Nat)
  | wrapper (t : Tex)
deriving DecidableEq, Repr

/-- GPU-side and attachment-restore events issued by the framebuffer
code, in order.  `stackPush`/`stackPop` are the Device draw-
framebuffer binding-stack operations. -/
inductive Ev : Type
  | createFramebuffer (result : Option Nat)
  | stackPush (fbo : Option Nat)
  | stackPop
  | framebufferTexture2D (target attachment textarget : Nat)
      (texture : TexArg) (level : Nat)
  | checkFramebufferStatus (target : Nat) (result : Nat)
  | deleteFramebuffer (fbo : Option Nat)
  | textureRestore (t : Tex)
deriving DecidableEq, Repr

/-- The construction-time error taxonomy relevant to `Framebuffer`. -/
inductive FBError : Type
  | DimensionMismatch
  | EmptyAttachmentList
  | FramebufferIncomplete
deriving DecidableEq, Repr

/-- The `Target` built by `Framebuffer.init`: `new Target(dev,
glColorAttachments, fbo, width, height)` (the `dev` back-reference is
implicit). -/
structure TargetRec where
  glColorAttachments : List Nat
  glFramebuffer : Nat
  width : Nat
  height : Nat
deriving DecidableEq, Repr

/-- The mutable fields of a `Framebuffer` object. -/
structure FramebufferRec where
  width : Nat
  height : Nat
  glFramebuffer : Option Nat
  glColorAttachments : List Nat
  framebufferTarget : Option TargetRec
  colors : List Tex
  depthStencil : Option Tex
  depthOnly : Bool
deriving DecidableEq, Repr

/-- The driver responses `Framebuffer.init`/`restore` observe:
what `gl.createFramebuffer()` returns, what
`gl.checkFramebufferStatus` reports, and which handles
`gl.isFramebuffer` considers valid. -/
structure GLEnv where
  createFramebufferResult : Option Nat
  checkFramebufferStatusResult : Nat
  isFramebuffer : Option Nat → Bool

/-- The outcome of running `init`/`restore` on a framebuffer: the
thrown error if any, the object's fields afterwards, the Device
draw-framebuffer binding stack afterwards, and the event trace. -/
structure InitOut where
  err : Option FBError
  fb : FramebufferRec
  stack : List (Option Nat)
  trace : List Ev
deriving DecidableEq, Repr

/-- `Framebuffer.init` (framebuffer source, lines 147-203): create a
framebuffer object, push it on the Device draw-framebuffer stack,
attach each color texture's `glTexture` handle at
`COLOR_ATTACHMENT0 + i`, attach the `depthStencil` value itself (the
wrapper, as the source does) at the depth or depth-stencil point,
check completeness, pop the stack, and then either delete the object
and throw, or install `glFramebuffer` and (when the object is
non-null) a fresh `Target`. -/
def Framebuffer.init (env : GLEnv) (fb : FramebufferRec)
    (stack : List (Option Nat)) : InitOut :=
  let fbo := env.createFramebufferResult
  let stack1 := fbo :: stack
  let colorCalls := fb.colors.enum.map fun p =>
    Ev.framebufferTexture2D GL_DRAW_FRAMEBUFFER (GL_COLOR_ATTACHMENT0 + p.1)
      GL_TEXTURE_2D (.handle p.2.glTexture) 0
  let depthCalls :=
    match fb.depthStencil with
    | some t =>
      [Ev.framebufferTexture2D GL_DRAW_FRAMEBUFFER
        (if fb.depthOnly then GL_DEPTH_ATTACHMENT else GL_DEPTH_STENCIL_ATTACHMENT)
        GL_TEXTURE_2D (.wrapper t) 0]
    | none => []
  let status := env.checkFramebufferStatusResult
  let stack2 := stack1.tail
  let base := Ev.createFramebuffer fbo :: Ev.stackPush fbo ::
    (colorCalls ++ depthCalls ++
      [Ev.checkFramebufferStatus GL_DRAW_FRAMEBUFFER status, Ev.stackPop])
  if status ≠ GL_FRAMEBUFFER_COMPLETE then
    { err := some .FramebufferIncomplete, fb := fb, stack := stack2,
      trace := base ++ [Ev.deleteFramebuffer fbo] }
  else
    let fb1 := { fb with glFramebuffer := fbo }
    let fb2 :=
      match fbo with
      | some f =>
        let tgt : TargetRec := ⟨fb.glColorAttachments, f, fb.width, fb.height⟩
        { fb1 with framebufferTarget := some tgt }
      | none => fb1
    { err := none, fb := fb2, stack := stack2, trace := base }

/-- The private `Framebuffer` constructor (lines 122-142): record the
fields, derive `glColorAttachments` as `COLOR_ATTACHMENT0 + i`, start
with null `glFramebuffer`/`framebufferTarget`, and run `init`. -/
def Framebuffer.ctor (env : GLEnv) (width height : Nat) (colors : List Tex)
    (depthStencil : Option Tex) (depthOnly : Bool)
    (stack : List (Option Nat)) : InitOut :=
  Framebuffer.init env
    { width := width, height := height, glFramebuffer := none,
      glColorAttachments := colors.enum.map fun p => GL_COLOR_ATTACHMENT0 + p.1,
      framebufferTarget := none, colors := colors,
      depthStencil := depthStencil, depthOnly := depthOnly }
    stack

/-- Modelled from the spec: `assert.equal` from `src/util/assert.ts`
(not included under `src/`); per the spec's error taxonomy, an
attachment size disagreeing with the Framebuffer's declared size
fails with `DimensionMismatch`. -/
def assertEqual (a b : Nat) : Except FBError Unit :=
  if a = b then .ok () else .error .DimensionMismatch

/-- Modelled from the spec: `assert.nonEmpty` from
`src/util/assert.ts` (not included under `src/`); per the spec's
error taxonomy, zero color attachments supplied where at least one is
required fails with `EmptyAttachmentList`. -/
def assertNonEmpty {α : Type} (l : List α) : Except FBError Unit :=
  if l.isEmpty then .error .EmptyAttachmentList else .ok ()

/-- The `colors.forEach(buffer => { assert.equal(width, buffer.width,
...); assert.equal(height, buffer.height, ...); })` loop shared by the
factory variants. -/
def checkDims (width height : Nat) : List Tex → Except FBError Unit
  | [] => .ok ()
  | buffer :: rest => do
    assertEqual width buffer.width
    assertEqual height buffer.height
    checkDims width height rest

/-- The `color: Texture | Texture[]` parameter of the color-carrying
factory variants. -/
def colorsOfArg : Sum Tex (List Tex) → List Tex
  | .inl t => [t]
  | .inr l => l

/-- `Framebuffer.withColor` (lines 16-30): normalize the color
argument, assert non-emptiness and per-attachment dimensions, then
run the constructor with no depth attachment. -/
def Framebuffer.withColor (env : GLEnv) (width height : Nat)
    (color : Sum Tex (List Tex)) (stack : List (Option Nat)) :
    Except FBError InitOut := do
  let colors := colorsOfArg color
  assertNonEmpty colors
  checkDims width height colors
  return Framebuffer.ctor env width height colors none true stack

/-- `Framebuffer.withDepth` (lines 35-44). -/
def Framebuffer.withDepth (env : GLEnv) (width height : Nat) (depth : Tex)
    (stack : List (Option Nat)) : Except FBError InitOut := do
  assertEqual width depth.width
  assertEqual height depth.height
  return Framebuffer.ctor env width height [] (some depth) true stack

/-- `Framebuffer.withDepthStencil` (lines 50-59). -/
def Framebuffer.withDepthStencil (env : GLEnv) (width height : Nat)
    (depthStencil : Tex) (stack : List (Option Nat)) :
    Except FBError InitOut := do
  assertEqual width depthStencil.width
  assertEqual height depthStencil.height
  return Framebuffer.ctor env width height [] (some depthStencil) false stack

/-- `Framebuffer.withColorDepth` (lines 65-82). -/
def Framebuffer.withColorDepth (env : GLEnv) (width height : Nat)
    (color : Sum Tex (List Tex)) (depth : Tex) (stack : List (Option Nat)) :
    Except FBError InitOut := do
  let colorBuffers := colorsOfArg color
  assertNonEmpty colorBuffers
  checkDims width height colorBuffers
  assertEqual width depth.width
  assertEqual height depth.height
  return Framebuffer.ctor env width height colorBuffers (some depth) true stack

/-- `Framebuffer.withColorDepthStencil` (lines 88-105). -/
def Framebuffer.withColorDepthStencil (env : GLEnv) (width height : Nat)
    (color : Sum Tex (List Tex)) (depthStencil : Tex)
    (stack : List (Option Nat)) : Except FBError InitOut := do
  let colors := colorsOfArg color
  assertNonEmpty colors
  checkDims width height colors
  assertEqual width depthStencil.width
  assertEqual height depthStencil.height
  return Framebuffer.ctor env width height colors (some depthStencil) false stack

/-- The GPU-event trace of a factory-variant construction: a
validation failure throws before the constructor runs, so no event is
issued. -/
def constructionTrace : Except FBError InitOut → List Ev
  | .error _ => []
  | .ok o => o.trace

/-- The attachment-restore calls issued by `Framebuffer.restore`:
`colors.forEach(buffer => buffer.restore())` followed by
`if (depthStencil) { depthStencil.restore(); }`. -/
def attachmentRestores (fb : FramebufferRec) : List Ev :=
  fb.colors.map Ev.textureRestore ++
    (match fb.depthStencil with
     | some t => [Ev.textureRestore t]
     | none => [])

/-- `Framebuffer.restore` (lines 208-218): restore every color
attachment and the depth attachment when present, then re-run `init`
iff `gl.isFramebuffer` reports the current object invalid. -/
def Framebuffer.restore (env : GLEnv) (fb : FramebufferRec)
    (stack : List (Option Nat)) : InitOut :=
  let restores := attachmentRestores fb
  if env.isFramebuffer fb.glFramebuffer then
    { err := none, fb := fb, stack := stack, trace := restores }
  else
    let o := Framebuffer.init env fb stack
    { o with trace := restores ++ o.trace }

/-- Modelled from the spec: `Target.with` (the Device/Target source is
not under `src/`); per spec §4.2 it binds the target's framebuffer and
viewport, runs the callback once, and unbinds on every exit path.  We
model the sequence of callback invocations. -/
def Target.withCb {α : Type} (t : TargetRec) (cb : TargetRec → α) : List α :=
  [cb t]

/-- `Framebuffer.target` (lines 229-231): invoke the owned Target's
`with` only when `framebufferTarget` is non-null; otherwise do
nothing.  The result is the list of callback invocation results. -/
def Framebuffer.targetRun {α : Type} (fb : FramebufferRec)
    (cb : TargetRec → α) : List α :=
  match fb.framebufferTarget with
  | some t => Target.withCb t cb
  | none => []

/-! ## Auxiliary notions used by the theorems -/

/-- Number of binding-stack pushes in a trace. -/
def pushCount (tr : List Ev) : Nat :=
  tr.countP fun e =>
    match e with
    | .stackPush _ => true
    | _ => false

/-- Number of binding-stack pops in a trace. -/
def popCount (tr : List Ev) : Nat :=
  tr.countP fun e =>
    match e with
    | .stackPop => true
    | _ => false

/-- Some attachment in the list disagrees with the declared
dimensions. -/
def dimMismatch (w h : Nat) (l : List Tex) : Prop :=
  ∃ t ∈ l, t.width ≠ w ∨ t.height ≠ h

instance (w h : Nat) (l : List Tex) : Decidable (dimMismatch w h l) := by
  unfold dimMismatch
  infer_instance

/-- A concrete 128×128 color texture used to exercise the validation
paths. -/
def tex128 : Tex := ⟨1, 128, 128⟩

/-- A concrete 4×4 color texture. -/
def texColorA : Tex := ⟨11, 4, 4⟩

/-- A concrete 4×4 depth texture. -/
def texDepthA : Tex := ⟨12, 4, 4⟩

/-- A driver that hands out framebuffer object 1, reports
completeness, and considers every handle valid. -/
def envOKA : GLEnv :=
  ⟨some 1, GL_FRAMEBUFFER_COMPLETE, fun _ => true⟩

/-- A driver whose completeness check fails (status 0) and that
considers no handle valid. -/
def envBadA : GLEnv := ⟨some 1, 0, fun _ => false⟩

/-- A driver whose `createFramebuffer` returns null but that reports
completeness. -/
def envNullFboA : GLEnv := ⟨none, GL_FRAMEBUFFER_COMPLETE, fun _ => true⟩

/-- A concrete framebuffer record with one color and one depth
attachment. -/
def fbCD : FramebufferRec :=
  ⟨4, 4, none, [GL_COLOR_ATTACHMENT0], none, [texColorA], some texDepthA, true⟩

/-- A concrete framebuffer record with one color attachment and no
depth attachment. -/
def fbC : FramebufferRec :=
  ⟨4, 4, some 1, [GL_COLOR_ATTACHMENT0], none, [texColorA], none, true⟩

/-! ## Theorems -/

/-- C3: every draw dispatch issues exactly one GPU draw call, indexed
iff `hasElements`, instanced iff `instanceCount > 0`, and the index
type passed in the indexed variants is always `UNSIGNED_INT`. -/
theorem draw_dispatch_matrix (glPrimitive : Nat) (hasElements : Bool)
    (count instCount : Nat) :
    ∃ d, Command.drawDispatch glPrimitive hasElements count instCount = [d] ∧
      d.indexed = hasElements ∧
      d.instanced = decide (0 < instCount) ∧
      d.indexType = (if hasElements then some GL_UNSIGNED_INT else none) := by
  rcases Nat.eq_zero_or_pos instCount with h | h <;> cases hasElements <;>
    simp [Command.drawDispatch, h, Nat.pos_iff_ne_zero, DrawCall.indexed,
      DrawCall.instanced, DrawCall.indexType] <;>
    simp [Nat.ne_of_gt h]

/-- C7: `Framebuffer.init` pushes once and pops once on the Device
draw-framebuffer binding stack on every exit path (success or
`FramebufferIncomplete` throw), so the stack after the call equals
the stack before it. -/
theorem init_stack_balanced (env : GLEnv) (fb : FramebufferRec)
    (stack : List (Option Nat)) :
    (Framebuffer.init env fb stack).stack = stack ∧
    pushCount (Framebuffer.init env fb stack).trace = 1 ∧
    popCount (Framebuffer.init env fb stack).trace = 1 := by
  unfold Framebuffer.init pushCount popCount
  cases hd : fb.depthStencil <;>
    by_cases hs : env.checkFramebufferStatusResult = GL_FRAMEBUFFER_COMPLETE <;>
    simp [hd, hs, List.countP_append, List.countP_cons, List.countP_map,
      Function.comp]

/-- C8: when the driver reports the framebuffer incomplete,
`Framebuffer.init` fails with `FramebufferIncomplete`, deletes the
newly created framebuffer object as its last GPU action, and leaves
the `Framebuffer`'s observable fields (`glFramebuffer` handle and
owned Target, indeed the whole record) unchanged. -/
theorem init_incomplete_rollback (env : GLEnv) (fb : FramebufferRec)
    (stack : List (Option Nat))
    (h : env.checkFramebufferStatusResult ≠ GL_FRAMEBUFFER_COMPLETE) :
    (Framebuffer.init env fb stack).err = some .FramebufferIncomplete ∧
    (Framebuffer.init env fb stack).fb = fb ∧
    (Framebuffer.init env fb stack).fb.glFramebuffer = fb.glFramebuffer ∧
    (Framebuffer.init env fb stack).fb.framebufferTarget = fb.framebufferTarget ∧
    Ev.deleteFramebuffer env.createFramebufferResult
      ∈ (Framebuffer.init env fb stack).trace := by
  unfold Framebuffer.init
  simp [h]

/-- C8 witness: a driver reporting status 0 on a concrete framebuffer
record. -/
theorem init_incomplete_rollback_witness :
    envBadA.checkFramebufferStatusResult ≠ GL_FRAMEBUFFER_COMPLETE ∧
    ((Framebuffer.init envBadA fbCD []).err = some .FramebufferIncomplete ∧
      (Framebuffer.init envBadA fbCD []).fb = fbCD ∧
      (Framebuffer.init envBadA fbCD []).fb.glFramebuffer = fbCD.glFramebuffer ∧
      (Framebuffer.init envBadA fbCD []).fb.framebufferTarget = fbCD.framebufferTarget ∧
      Ev.deleteFramebuffer envBadA.createFramebufferResult
        ∈ (Framebuffer.init envBadA fbCD []).trace) :=
  ⟨by decide, init_incomplete_rollback envBadA fbCD [] (by decide)⟩

/-- C6 (counter-evidence): on a framebuffer with a depth attachment,
`init` attaches the i-th color texture's GL handle at color point i,
but at the depth point it passes the depth `Texture` wrapper object
itself rather than its `glTexture` handle — the handle-carrying
attach call for the depth texture never appears in the trace. -/
theorem init_attaches_wrapper_not_handle :
    (Framebuffer.init envOKA fbCD []).trace =
      [Ev.createFramebuffer (some 1), Ev.stackPush (some 1),
       Ev.framebufferTexture2D GL_DRAW_FRAMEBUFFER (GL_COLOR_ATTACHMENT0 + 0)
         GL_TEXTURE_2D (.handle texColorA.glTexture) 0,
       Ev.framebufferTexture2D GL_DRAW_FRAMEBUFFER GL_DEPTH_ATTACHMENT
         GL_TEXTURE_2D (.wrapper texDepthA) 0,
       Ev.checkFramebufferStatus GL_DRAW_FRAMEBUFFER GL_FRAMEBUFFER_COMPLETE,
       Ev.stackPop] ∧
    Ev.framebufferTexture2D GL_DRAW_FRAMEBUFFER GL_DEPTH_ATTACHMENT
        GL_TEXTURE_2D (.handle texDepthA.glTexture) 0
      ∉ (Framebuffer.init envOKA fbCD []).trace := by
  decide

/-- C5 (counter-evidence): `INT_PATTERN = /^0|[1-9]\d*$/` classifies
the non-integer key `"a1"` as an integer (regex alternation binds
loosest, so the pattern is `(^0)|([1-9]\d*$)`), and `locate` passes
it through unchanged without consulting program introspection, even
though the program could resolve it to location 3. -/
theorem int_pattern_misclassifies :
    intPatternTest "a1" = true ∧
    wholeIntLiteral "a1" = false ∧
    (fun s => if s = "a1" then (3 : Int) else UNKNOWN_ATTRIB_LOCATION) "a1"
      ≠ UNKNOWN_ATTRIB_LOCATION ∧
    Command.locate (fun s => if s = "a1" then (3 : Int) else UNKNOWN_ATTRIB_LOCATION)
      [("a1", (0 : Nat))] = .ok [("a1", 0)] :=
  ⟨by decide, by decide, by decide, by rfl⟩

/-- A concrete Target record. -/
def tgtA : TargetRec := ⟨[GL_COLOR_ATTACHMENT0], 1, 4, 4⟩

/-- A concrete framebuffer record owning `tgtA`. -/
def fbT : FramebufferRec :=
  ⟨4, 4, some 1, [GL_COLOR_ATTACHMENT0], some tgtA, [texColorA], none, true⟩

/-- C10: `Framebuffer.target` runs the callback (exactly once, via
the owned Target's `with`) iff the owned Target is non-null, and
returns silently otherwise; `init` with a null `createFramebuffer`
result under a complete status succeeds without building a Target. -/
theorem target_guard {α : Type} (fb : FramebufferRec) (cb : TargetRec → α) :
    (∀ t, fb.framebufferTarget = some t → Framebuffer.targetRun fb cb = [cb t]) ∧
    (fb.framebufferTarget = none → Framebuffer.targetRun fb cb = []) ∧
    (∀ (env : GLEnv) (fb0 : FramebufferRec) (stack : List (Option Nat)),
      env.createFramebufferResult = none →
      env.checkFramebufferStatusResult = GL_FRAMEBUFFER_COMPLETE →
      (Framebuffer.init env fb0 stack).err = none ∧
      (Framebuffer.init env fb0 stack).fb.framebufferTarget = fb0.framebufferTarget) := by
  refine ⟨?_, ?_, ?_⟩
  · intro t ht
    simp [Framebuffer.targetRun, ht, Target.withCb]
  · intro ht
    simp [Framebuffer.targetRun, ht]
  · intro env fb0 stack hc hs
    unfold Framebuffer.init
    simp [hc, hs]

/-- C10 witness: with a null owned Target the callback never runs and
nothing is thrown; with a non-null one it runs once; a null
`createFramebuffer` result under a complete status leaves the Target
untouched. -/
theorem target_guard_witness :
    fbCD.framebufferTarget = none ∧
    Framebuffer.targetRun fbCD (fun t => t.glFramebuffer) = [] ∧
    fbT.framebufferTarget = some tgtA ∧
    Framebuffer.targetRun fbT (fun t => t.glFramebuffer) = [tgtA.glFramebuffer] ∧
    envNullFboA.createFramebufferResult = none ∧
    (Framebuffer.init envNullFboA fbCD []).err = none ∧
    (Framebuffer.init envNullFboA fbCD []).fb.framebufferTarget = fbCD.framebufferTarget :=
  ⟨rfl, (target_guard fbCD (fun t => t.glFramebuffer)).2.1 rfl, rfl,
   (target_guard fbT (fun t => t.glFramebuffer)).1 tgtA rfl, rfl,
   ((target_guard fbCD (fun t => t.glFramebuffer)).2.2 envNullFboA fbCD [] rfl rfl).1,
   ((target_guard fbCD (fun t => t.glFramebuffer)).2.2 envNullFboA fbCD [] rfl rfl).2⟩

/-- C9: `Framebuffer.restore` first restores every color attachment
and the depth attachment when present; when the driver still reports
the object valid it re-creates nothing (the whole outcome is exactly
the attachment restores, every trace event is a texture restore, and
the record is unchanged); when the driver reports it invalid the
outcome continues as `init`. -/
theorem restore_protocol (env : GLEnv) (fb : FramebufferRec)
    (stack : List (Option Nat)) :
    (∃ rest, (Framebuffer.restore env fb stack).trace =
      attachmentRestores fb ++ rest) ∧
    (env.isFramebuffer fb.glFramebuffer = true →
      Framebuffer.restore env fb stack =
        ⟨none, fb, stack, attachmentRestores fb⟩ ∧
      ∀ e ∈ (Framebuffer.restore env fb stack).trace, ∃ t, e = Ev.textureRestore t) ∧
    (env.isFramebuffer fb.glFramebuffer = false →
      (Framebuffer.restore env fb stack).err = (Framebuffer.init env fb stack).err ∧
      (Framebuffer.restore env fb stack).fb = (Framebuffer.init env fb stack).fb ∧
      (Framebuffer.restore env fb stack).trace =
        attachmentRestores fb ++ (Framebuffer.init env fb stack).trace) := by
  have hres : ∀ e ∈ attachmentRestores fb, ∃ t, e = Ev.textureRestore t := by
    intro e he
    unfold attachmentRestores at he
    rcases List.mem_append.mp he with hc | hd
    · obtain ⟨t, _, rfl⟩ := List.mem_map.mp hc
      exact ⟨t, rfl⟩
    · cases hds : fb.depthStencil with
      | none => rw [hds] at hd; simp at hd
      | some t =>
        rw [hds] at hd
        simp at hd
        exact ⟨t, hd⟩
  by_cases hv : env.isFramebuffer fb.glFramebuffer
  · refine ⟨⟨[], ?_⟩, fun _ => ⟨?_, ?_⟩, fun hf => absurd hv (by simp [hf])⟩
    · simp [Framebuffer.restore, hv]
    · simp [Framebuffer.restore, hv]
    · intro e he
      apply hres
      simpa [Framebuffer.restore, hv] using he
  · have hv' : env.isFramebuffer fb.glFramebuffer = false := by
      simpa using hv
    refine ⟨⟨(Framebuffer.init env fb stack).trace, ?_⟩,
      fun ht => absurd ht (by simp [hv']), fun _ => ⟨?_, ?_, ?_⟩⟩ <;>
      simp [Framebuffer.restore, hv']

/-- C9 witness: a still-valid framebuffer with one color attachment:
restore is a no-op apart from the attachment's own restore call. -/
theorem restore_protocol_witness :
    envOKA.isFramebuffer fbC.glFramebuffer = true ∧
    Framebuffer.restore envOKA fbC [] =
      ⟨none, fbC, [], attachmentRestores fbC⟩ :=
  ⟨rfl, ((restore_protocol envOKA fbC []).2.1 rfl).1⟩

/-- Bind on a successful `Except` computation. -/
@[simp]
theorem exceptBind_ok {ε α β : Type} (a : α) (f : α → Except ε β) :
    (Except.ok a >>= f : Except ε β) = f a := rfl

/-- Bind on a failed `Except` computation. -/
@[simp]
theorem exceptBind_error {ε α β : Type} (e : ε) (f : α → Except ε β) :
    (Except.error e >>= f : Except ε β) = Except.error e := rfl

/-- `pure` on `Except` is `ok`. -/
@[simp]
theorem exceptPure_eq_ok {ε α : Type} (a : α) :
    (pure a : Except ε α) = Except.ok a := rfl

/-- A dimension mismatch in the list makes the `forEach` dimension
check throw `DimensionMismatch`. -/
theorem checkDims_error_of_mismatch (w h : Nat) (l : List Tex)
    (hbad : dimMismatch w h l) :
    checkDims w h l = .error .DimensionMismatch := by
  induction l with
  | nil =>
    obtain ⟨t, ht, _⟩ := hbad
    simp at ht
  | cons b rest ih =>
    obtain ⟨t, ht, hwh⟩ := hbad
    rcases List.mem_cons.mp ht with rfl | hmem
    · by_cases hw : w = t.width
      · have hh : ¬h = t.height := by
          rcases hwh with h1 | h2
          · exact absurd hw.symm h1
          · exact fun hc => h2 hc.symm
        simp [checkDims, assertEqual, hw, hh]
      · simp [checkDims, assertEqual, hw]
    · by_cases hw : w = b.width
      · by_cases hh : h = b.height
        · simpa [checkDims, assertEqual, hw, hh] using ih ⟨t, hmem, hwh⟩
        · simp [checkDims, assertEqual, hw, hh]
      · simp [checkDims, assertEqual, hw]

/-- The dimension check can only throw `DimensionMismatch`. -/
theorem checkDims_error_eq (w h : Nat) (l : List Tex) (e : FBError)
    (hres : checkDims w h l = .error e) : e = .DimensionMismatch := by
  induction l with
  | nil => simp [checkDims] at hres
  | cons b rest ih =>
    by_cases hw : w = b.width
    · by_cases hh : h = b.height
      · exact ih (by simpa [checkDims, assertEqual, hw, hh] using hres)
      · simp [checkDims, assertEqual, hw, hh] at hres
        exact hres.symm
    · simp [checkDims, assertEqual, hw] at hres
      exact hres.symm

/-- A factory-variant construction that is refused by validation:
construction fails with `DimensionMismatch` or `EmptyAttachmentList`
and no GPU event (in particular no framebuffer-object creation) is
ever issued. -/
def failsBeforeGPU (r : Except FBError InitOut) : Prop :=
  ∃ e, (e = FBError.DimensionMismatch ∨ e = FBError.EmptyAttachmentList) ∧
    r = .error e ∧ constructionTrace r = []

/-- C2: every factory variant validates the color-attachment list
(non-empty where colors are required) and every attachment's
dimensions against the declared width/height before the constructor
runs, and a violation fails with `DimensionMismatch` /
`EmptyAttachmentList` before any GPU object is created. -/
theorem framebuffer_validation (env : GLEnv) (w h : Nat)
    (stack : List (Option Nat)) :
    (∀ c, ((colorsOfArg c).isEmpty = true ∨ dimMismatch w h (colorsOfArg c)) →
      failsBeforeGPU (Framebuffer.withColor env w h c stack)) ∧
    (∀ d : Tex, (d.width ≠ w ∨ d.height ≠ h) →
      Framebuffer.withDepth env w h d stack = .error .DimensionMismatch ∧
      constructionTrace (Framebuffer.withDepth env w h d stack) = []) ∧
    (∀ d : Tex, (d.width ≠ w ∨ d.height ≠ h) →
      Framebuffer.withDepthStencil env w h d stack = .error .DimensionMismatch ∧
      constructionTrace (Framebuffer.withDepthStencil env w h d stack) = []) ∧
    (∀ c (d : Tex), ((colorsOfArg c).isEmpty = true ∨
        dimMismatch w h (colorsOfArg c) ∨ d.width ≠ w ∨ d.height ≠ h) →
      failsBeforeGPU (Framebuffer.withColorDepth env w h c d stack)) ∧
    (∀ c (d : Tex), ((colorsOfArg c).isEmpty = true ∨
        dimMismatch w h (colorsOfArg c) ∨ d.width ≠ w ∨ d.height ≠ h) →
      failsBeforeGPU (Framebuffer.withColorDepthStencil env w h c d stack)) := by
  have hsplit : ∀ d : Tex, (d.width ≠ w ∨ d.height ≠ h) →
      ¬w = d.width ∨ (w = d.width ∧ ¬h = d.height) := by
    intro d hd
    by_cases hw : w = d.width
    · have h2 : d.height ≠ h := hd.resolve_left (fun hc => hc hw.symm)
      exact Or.inr ⟨hw, fun hc => h2 hc.symm⟩
    · exact Or.inl hw
  refine ⟨?_, ?_, ?_, ?_, ?_⟩
  · intro c hbad
    by_cases hemp : (colorsOfArg c).isEmpty
    · exact ⟨.EmptyAttachmentList, Or.inr rfl, by
        simp [Framebuffer.withColor, assertNonEmpty, hemp], by
        simp [constructionTrace, Framebuffer.withColor, assertNonEmpty, hemp]⟩
    · have hmm : dimMismatch w h (colorsOfArg c) := by
        rcases hbad with h1 | h1
        · exact absurd h1 hemp
        · exact h1
      refine ⟨.DimensionMismatch, Or.inl rfl, ?_, ?_⟩ <;>
        simp [constructionTrace, Framebuffer.withColor, assertNonEmpty, hemp,
          checkDims_error_of_mismatch w h _ hmm]
  · intro d hd
    rcases hsplit d hd with hw | ⟨hw, hh⟩
    · constructor <;> simp [constructionTrace, Framebuffer.withDepth, assertEqual, hw]
    · constructor <;> simp [constructionTrace, Framebuffer.withDepth, assertEqual, hw, hh]
  · intro d hd
    rcases hsplit d hd with hw | ⟨hw, hh⟩
    · constructor <;> simp [constructionTrace, Framebuffer.withDepthStencil, assertEqual, hw]
    · constructor <;> simp [constructionTrace, Framebuffer.withDepthStencil, assertEqual, hw, hh]
  · intro c d hbad
    by_cases hemp : (colorsOfArg c).isEmpty
    · exact ⟨.EmptyAttachmentList, Or.inr rfl, by
        simp [Framebuffer.withColorDepth, assertNonEmpty, hemp], by
        simp [constructionTrace, Framebuffer.withColorDepth, assertNonEmpty, hemp]⟩
    · rcases hbad with h1 | h1 | h1 | h1
      · exact absurd h1 hemp
      · refine ⟨.DimensionMismatch, Or.inl rfl, ?_, ?_⟩ <;>
          simp [constructionTrace, Framebuffer.withColorDepth, assertNonEmpty, hemp,
            checkDims_error_of_mismatch w h _ h1]
      all_goals
        cases hcd : checkDims w h (colorsOfArg c) with
        | error e =>
          have he := checkDims_error_eq w h _ e hcd
          subst he
          refine ⟨.DimensionMismatch, Or.inl rfl, ?_, ?_⟩ <;>
            simp [constructionTrace, Framebuffer.withColorDepth, assertNonEmpty,
              hemp, hcd]
        | ok u =>
          rcases hsplit d (by tauto) with hw | ⟨hw, hh⟩
          · refine ⟨.DimensionMismatch, Or.inl rfl, ?_, ?_⟩ <;>
              simp [constructionTrace, Framebuffer.withColorDepth, assertNonEmpty,
                assertEqual, hemp, hcd, hw]
          · rw [hw] at hcd
            refine ⟨.DimensionMismatch, Or.inl rfl, ?_, ?_⟩ <;>
              simp [constructionTrace, Framebuffer.withColorDepth, assertNonEmpty,
                assertEqual, hemp, hcd, hw, hh]
  · intro c d hbad
    by_cases hemp : (colorsOfArg c).isEmpty
    · exact ⟨.EmptyAttachmentList, Or.inr rfl, by
        simp [Framebuffer.withColorDepthStencil, assertNonEmpty, hemp], by
        simp [constructionTrace, Framebuffer.withColorDepthStencil, assertNonEmpty, hemp]⟩
    · rcases hbad with h1 | h1 | h1 | h1
      · exact absurd h1 hemp
      · refine ⟨.DimensionMismatch, Or.inl rfl, ?_, ?_⟩ <;>
          simp [constructionTrace, Framebuffer.withColorDepthStencil, assertNonEmpty, hemp,
            checkDims_error_of_mismatch w h _ h1]
      all_goals
        cases hcd : checkDims w h (colorsOfArg c) with
        | error e =>
          have he := checkDims_error_eq w h _ e hcd
          subst he
          refine ⟨.DimensionMismatch, Or.inl rfl, ?_, ?_⟩ <;>
            simp [constructionTrace, Framebuffer.withColorDepthStencil, assertNonEmpty,
              hemp, hcd]
        | ok u =>
          rcases hsplit d (by tauto) with hw | ⟨hw, hh⟩
          · refine ⟨.DimensionMismatch, Or.inl rfl, ?_, ?_⟩ <;>
              simp [constructionTrace, Framebuffer.withColorDepthStencil, assertNonEmpty,
                assertEqual, hemp, hcd, hw]
          · rw [hw] at hcd
            refine ⟨.DimensionMismatch, Or.inl rfl, ?_, ?_⟩ <;>
              simp [constructionTrace, Framebuffer.withColorDepthStencil, assertNonEmpty,
                assertEqual, hemp, hcd, hw, hh]

/-- C2 witness: a single 128×128 color texture on a declared 256×256
framebuffer is refused before any GPU object exists. -/
theorem framebuffer_validation_witness :
    ((colorsOfArg (.inl tex128)).isEmpty = true ∨
      dimMismatch 256 256 (colorsOfArg (.inl tex128))) ∧
    failsBeforeGPU (Framebuffer.withColor envOKA 256 256 (.inl tex128) []) :=
  ⟨Or.inr (by decide),
   (framebuffer_validation envOKA 256 256 []).1 (.inl tex128) (Or.inr (by decide))⟩

/-- C1: the uniform-resolution loop of `Command.create` records every
declared uniform whose identifier resolves to a location (in
declaration order, with its resolved location), succeeds exactly when
every identifier resolves, and when some identifier does not resolve
it fails with an error naming a declared identifier that has no
location — no declared uniform is ever silently omitted. -/
theorem resolve_uniforms_exhaustive {P : Type} (env : String → Option Nat)
    (us : List (String × Uniform P)) :
    (∀ infos, resolveUniforms env us = .ok infos →
      infos.map (fun i => (i.identifier, i.definition)) = us ∧
      ∀ i ∈ infos, env i.identifier = some i.location) ∧
    ((∀ iu ∈ us, (env iu.1).isSome) →
      ∃ infos, resolveUniforms env us = .ok infos) ∧
    ((∃ iu ∈ us, env iu.1 = none) →
      ∃ ident, (∃ u, (ident, u) ∈ us) ∧ env ident = none ∧
        resolveUniforms env us = .error ("No location for uniform: " ++ ident)) := by
  induction us with
  | nil =>
    refine ⟨?_, fun _ => ⟨[], rfl⟩, ?_⟩
    · intro infos hok
      simp only [resolveUniforms] at hok
      cases hok
      simp
    · rintro ⟨iu, hm, _⟩
      simp at hm
  | cons hd rest ih =>
    obtain ⟨ident, u⟩ := hd
    cases henv : env ident with
    | none =>
      refine ⟨?_, ?_, ?_⟩
      · intro infos hok
        simp [resolveUniforms, henv] at hok
      · intro hall
        have hs := hall (ident, u) (List.mem_cons_self _ _)
        simp [henv] at hs
      · intro _
        exact ⟨ident, ⟨u, List.mem_cons_self _ _⟩, henv,
          by simp [resolveUniforms, henv]⟩
    | some loc =>
      cases hrec : resolveUniforms env (P := P) rest with
      | error msg =>
        refine ⟨?_, ?_, ?_⟩
        · intro infos hok
          simp [resolveUniforms, henv, hrec] at hok
        · intro hall
          obtain ⟨infos, hok⟩ :=
            ih.2.1 (fun iu hm => hall iu (List.mem_cons_of_mem _ hm))
          rw [hrec] at hok
          cases hok
        · intro hex
          have hex' : ∃ iu ∈ rest, env iu.1 = none := by
            obtain ⟨iu, hm, hn⟩ := hex
            rcases List.mem_cons.mp hm with rfl | hm'
            · rw [henv] at hn; cases hn
            · exact ⟨iu, hm', hn⟩
          obtain ⟨i2, hu2, hn2, herr2⟩ := ih.2.2 hex'
          obtain ⟨u2, hu2'⟩ := hu2
          exact ⟨i2, ⟨u2, List.mem_cons_of_mem _ hu2'⟩, hn2,
            by simp [resolveUniforms, henv, herr2]⟩
      | ok tail =>
        refine ⟨?_, ?_, ?_⟩
        · intro infos hok
          simp [resolveUniforms, henv, hrec] at hok
          subst hok
          obtain ⟨hmap, hloc⟩ := ih.1 tail hrec
          refine ⟨by simp [hmap], ?_⟩
          intro i hi
          rcases List.mem_cons.mp hi with rfl | hi'
          · exact henv
          · exact hloc i hi'
        · intro _
          exact ⟨⟨ident, loc, u⟩ :: tail, by simp [resolveUniforms, henv, hrec]⟩
        · intro hex
          have hex' : ∃ iu ∈ rest, env iu.1 = none := by
            obtain ⟨iu, hm, hn⟩ := hex
            rcases List.mem_cons.mp hm with rfl | hm'
            · rw [henv] at hn; cases hn
            · exact ⟨iu, hm', hn⟩
          obtain ⟨i2, hu2, hn2, herr2⟩ := ih.2.2 hex'
          rw [hrec] at herr2
          cases herr2

/-- C1 witness: a program resolving `u_x` but not `u_y`: the
single-uniform map over `u_x` resolves fully, and for the map
declaring `u_y` resolution fails naming `u_y`. -/
theorem resolve_uniforms_exhaustive_witness :
    (∀ iu ∈ [("u_x", Uniform.u1f (P := Unit) (.value 1))],
      ((fun s => if s = "u_x" then some 5 else none) iu.1).isSome) ∧
    (∃ infos, resolveUniforms (P := Unit)
      (fun s => if s = "u_x" then some 5 else none)
      [("u_x", Uniform.u1f (.value 1))] = .ok infos) :=
  ⟨by decide,
   (resolve_uniforms_exhaustive (fun s => if s = "u_x" then some 5 else none)
      [("u_x", Uniform.u1f (.value 1))]).2.1 (by decide)⟩

/-- The texture triples of the uniform-dispatch trace starting at any
texture-unit offset are exactly the texture bindings, in declaration
order, with sequential units. -/
theorem texTriples_updateUniformsGo {P : Type} (props : P) (off : Nat)
    (bs : List (UniformInfo P)) :
    texTriples (updateUniformsGo props off bs) =
      expectedTexTriples props off (textureBindings bs) := by
  induction bs generalizing off with
  | nil => simp [updateUniformsGo, textureBindings, texTriples, expectedTexTriples]
  | cons b rest ih =>
    cases hd : b.definition <;>
      simp [updateUniformsGo, textureBindings, List.filterMap_cons, hd,
        texTriples, expectedTexTriples, ih]

/-- The units in the expected texture triples are sequential from
`off`. -/
theorem expectedTexTriples_units {P : Type} (props : P) (off : Nat)
    (l : List (Nat × AccessorOrValue P Tex)) :
    (expectedTexTriples props off l).map (fun q => q.1) =
      (List.range l.length).map (fun k => GL_TEXTURE0 + off + k) := by
  induction l generalizing off with
  | nil => simp [expectedTexTriples]
  | cons p rest ih =>
    obtain ⟨loc, v⟩ := p
    have harith : ∀ k, GL_TEXTURE0 + (off + 1) + k = GL_TEXTURE0 + off + (k + 1) := by
      intro k
      omega
    simp [expectedTexTriples, ih (off + 1), List.range_succ_eq_map,
      List.map_map, Function.comp, harith, Nat.add_assoc]

/-- C4: `Command.updateUniforms` assigns the texture-typed bindings
the texture units `0, 1, ..., N-1` in declaration order, restarting
from 0 on every call, and binds for each one the texture produced by
evaluating `access` against the current props — no value or unit is
cached across calls. -/
theorem update_uniforms_texture_units {P : Type}
    (bindings : List (UniformInfo P)) (props : P) :
    texTriples (Command.updateUniforms bindings props) =
      expectedTexTriples props 0 (textureBindings bindings) ∧
    (texTriples (Command.updateUniforms bindings props)).map (fun q => q.1) =
      (List.range (textureBindings bindings).length).map
        (fun k => GL_TEXTURE0 + k) := by
  constructor
  · exact texTriples_updateUniformsGo props 0 bindings
  · rw [Command.updateUniforms, texTriples_updateUniformsGo]
    simpa using expectedTexTriples_units props 0 (textureBindings bindings)

end Rend
